import Mathlib

/-!
# Verification of the contractor-directory scrape/ETL/storage core

A shallow embedding, in Lean 4, of the algorithmic core of the
`gaf-roofing-ai-system` repository: the ETL normalizer
(`app/etl/processor.py`), the profile-scraper field rules
(`app/scraper/profile_scraper.py`), and the upsert storage layer
(`app/storage/contractor_storage.py`), together with theorems settling the
specification's claims about them.

Conventions of the embedding:
* Python dicts produced by the ETL step become structures whose fields are
  `Option`-typed; a key that is absent and a key bound to `None` are both
  `none` (Python's `dict.get` cannot tell them apart either).
* Python truthiness is made explicit: `truthyStr` (non-null, non-empty
  string), `truthyInt` (non-null, non-zero), `truthyList` (non-null,
  non-empty list).
* Python floats (`rating`) are only ever branched on via `is not None` in
  the modelled code, never arithmetically, so their value type is modelled
  as `Int`; the choice is immaterial to every claim below.
* Strings are processed as their character lists; Python's `\d` and
  `str.isdigit` are modelled over the ASCII digits (`Char.isDigit`), and
  `str.lower` / `str.strip` by the character-list maps `pyLower` /
  `pyStrip`.
* Timestamps (`datetime.now()`) are an `Int` parameter (seconds), a day
  being `86400`.
-/

/-- Python truthiness of an optional string: `None` and `""` are falsy. -/
def truthyStr : Option String → Bool
  | none => false
  | some s => !(s == "")

/-- Python truthiness of an optional integer: `None` and `0` are falsy. -/
def truthyInt : Option Int → Bool
  | none => false
  | some n => !(n == 0)

/-- Python truthiness of an optional list: `None` and `[]` are falsy. -/
def truthyList : Option (List String) → Bool
  | none => false
  | some l => !l.isEmpty

/-- A processed (post-ETL) listing dict, `processed_listing` in
`save_contractor`.  Fields are those read by the storage layer and the
confidence scorer. -/
structure ProcessedListing where
  contractor_name : Option String
  rating : Option Int
  review_count : Option Int
  city : Option String
  state : Option String
  profile_url : Option String
  external_contractor_id : Option String
  certifications : Option (List String)
deriving DecidableEq

/-- A processed (post-ETL) profile dict, `processed_profile` in
`save_contractor`. -/
structure ProcessedProfile where
  years_in_business : Option Int
  business_start_year : Option Int
  employee_range : Option String
  state_license_number : Option String
  address : Option String
  phone : Option String
  about_text : Option String
  review_snippets : Option (List String)
deriving DecidableEq

/-- `ETLProcessor.calculate_data_confidence` (`app/etl/processor.py`,
lines 94-138): sequential accumulation of one point per complete field,
then thresholding.  The checks mirror the Python line by line:
strings and the snippet list are tested for truthiness, `rating`,
`years_in_business` via the code's `is not None` / truthiness tests. -/
def calculate_data_confidence (l : ProcessedListing) (p : ProcessedProfile) : String :=
  let score : Nat := 0
  let score := score + (if truthyStr l.contractor_name then 1 else 0)
  let score := score + (if truthyStr l.city && truthyStr l.state then 1 else 0)
  let score := score + (if l.rating.isSome then 1 else 0)
  let score := score + (if truthyStr l.profile_url then 1 else 0)
  let score := score + (if truthyStr p.address then 1 else 0)
  let score := score + (if truthyStr p.phone then 1 else 0)
  let score := score + (if truthyInt p.years_in_business then 1 else 0)
  let score := score + (if truthyStr p.employee_range then 1 else 0)
  let score := score + (if truthyStr p.about_text then 1 else 0)
  let score := score + (if truthyList p.review_snippets then 1 else 0)
  if 8 ≤ score then "high"
  else if 5 ≤ score then "medium"
  else "low"

/-- The ten-point completeness score as the specification describes it: a
plain sum of one point per present/non-empty tracked field — four listing
points and six profile points. -/
def confidenceScore (l : ProcessedListing) (p : ProcessedProfile) : Nat :=
  (if truthyStr l.contractor_name then 1 else 0) +
  (if truthyStr l.city && truthyStr l.state then 1 else 0) +
  (if l.rating.isSome then 1 else 0) +
  (if truthyStr l.profile_url then 1 else 0) +
  (if truthyStr p.address then 1 else 0) +
  (if truthyStr p.phone then 1 else 0) +
  (if truthyInt p.years_in_business then 1 else 0) +
  (if truthyStr p.employee_range then 1 else 0) +
  (if truthyStr p.about_text then 1 else 0) +
  (if truthyList p.review_snippets then 1 else 0)

/-- Rank of a confidence bucket in the order low < medium < high. -/
def confidenceRank (c : String) : Nat :=
  if c == "high" then 2 else if c == "medium" then 1 else 0

/-- The characters Python's `re.sub(r'[^\d+]', '', phone)` keeps: digits
and every `+`. -/
def phoneStrip (cs : List Char) : List Char :=
  cs.filter (fun c => c.isDigit || c == '+')

/-- The country-code stripping step of `ETLProcessor._clean_phone`
(`app/etl/processor.py`, lines 201-205): drop a leading `+1`, else drop a
leading `1` when the string has exactly 11 characters. -/
def dropCountryCode (cs : List Char) : List Char :=
  if cs.take 2 = ['+', '1'] then cs.drop 2
  else if cs.take 1 = ['1'] ∧ cs.length = 11 then cs.drop 1
  else cs

/-- `ETLProcessor._clean_phone` (`app/etl/processor.py`, lines 192-211):
keep digits and `+` signs, strip a US country code, accept only a
10-digit result. -/
def clean_phone (phone : String) : Option String :=
  if phone = "" then none
  else
    let cleaned := dropCountryCode (phoneStrip phone.toList)
    if cleaned.length = 10 ∧ cleaned.all Char.isDigit then
      some (String.mk cleaned)
    else none

/-- `ETLProcessor._normalize_start_year` (`app/etl/processor.py`, lines
166-178), with `datetime.now().year` made an explicit parameter: accept a
start year only inside `[1800, current_year]`. -/
def normalize_start_year (current_year : Int) (year : Option Int) : Option Int :=
  match year with
  | none => none
  | some y => if 1800 ≤ y ∧ y ≤ current_year then some y else none

/-- The year sanity check of `GAFProfileScraper._extract_business_start_year`
(`app/scraper/profile_scraper.py`, line 228), applied to the 4-digit year
parsed from the details panel: the upper bound is the literal `2024` in the
source, not the current year. -/
def scraper_start_year_check (year : Int) : Option Int :=
  if 1800 ≤ year ∧ year ≤ 2024 then some year else none

/-- `GAFProfileScraper._extract_years_in_business`
(`app/scraper/profile_scraper.py`, lines 180-196), with
`datetime.now().year` an explicit parameter: `current_year - start_year`
when the start year is truthy (`if start_year:`), else `None`. -/
def extract_years_in_business (current_year : Int) (start_year : Option Int) : Option Int :=
  match start_year with
  | none => none
  | some s => if s ≠ 0 then some (current_year - s) else none

/-- `ETLProcessor._normalize_years` (`app/etl/processor.py`, lines
154-164): accept a years-in-business value only inside `[0, 200]`. -/
def normalize_years (years : Option Int) : Option Int :=
  match years with
  | none => none
  | some y => if 0 ≤ y ∧ y ≤ 200 then some y else none

/-- Boolean substring test on character lists (Python's `in` on strings):
`hasSub hay sub` is true when `sub` occurs contiguously in `hay`. -/
def hasSub (hay sub : List Char) : Bool :=
  match hay with
  | [] => sub.isEmpty
  | _ :: t => sub.isPrefixOf hay || hasSub t sub

/-- Python's `str.lower` over the characters (ASCII case folding, which
is all the matched phrases need). -/
def pyLower (s : String) : String :=
  String.mk (s.toList.map Char.toLower)

/-- Python's `str.strip`: remove leading and trailing whitespace. -/
def pyStrip (s : String) : String :=
  String.mk (((s.toList.dropWhile Char.isWhitespace).reverse.dropWhile Char.isWhitespace).reverse)

/-- `pat in s.lower()` for a Python string `s`. -/
def lowerContains (s pat : String) : Bool :=
  hasSub (pyLower s).toList pat.toList

/-- The first maximal digit run of a character list, as matched by
Python's `re.search(r'(\d+)', text)`. -/
def firstNumAux : List Char → Option (List Char)
  | [] => none
  | c :: t => if c.isDigit then some (c :: t.takeWhile Char.isDigit) else firstNumAux t

/-- Decimal value of a digit run (`int(match.group(1))`). -/
def digitsToNat (ds : List Char) : Nat :=
  ds.foldl (fun a c => 10 * a + (c.toNat - 48)) 0

/-- `int(re.search(r'(\d+)', text).group(1))`, or `none` when the text has
no digit. -/
def firstNum (s : String) : Option Nat :=
  (firstNumAux s.toList).map digitsToNat

/-- Attempt of `re.search(r'(\d+[-–]\d+)', text)` anchored at the head of
the list: a maximal digit run, a dash, a maximal digit run.  (For this
pattern, greedy matching with backtracking succeeds at a position exactly
when the maximal run from that position is followed by a dash and a
digit.) -/
def rangeAtHead (cs : List Char) : Option (List Char) :=
  let r1 := cs.takeWhile Char.isDigit
  if r1.isEmpty then none
  else
    match cs.drop r1.length with
    | d :: u =>
      if d = '-' ∨ d = '–' then
        let r2 := u.takeWhile Char.isDigit
        if r2.isEmpty then none else some (r1 ++ d :: r2)
      else none
    | [] => none

/-- Leftmost match of `re.search(r'(\d+[-–]\d+)', text)`: try each start
position left to right. -/
def rangeMatch : List Char → Option (List Char)
  | [] => none
  | c :: t =>
    match rangeAtHead (c :: t) with
    | some r => some r
    | none => rangeMatch t

/-- The employee-count interpretation of
`GAFProfileScraper._extract_employee_range`
(`app/scraper/profile_scraper.py`, lines 250-296), applied to the details
text once the labelled panel entry is found: qualifier phrases first
("more than"/"over", else "less than"/"under"), then an explicit numeric
range kept verbatim, then a bare integer bucketed, else the stripped raw
text.  When a qualifier phrase is present but no integer follows, the code
falls through to the numeric patterns, as here. -/
def extract_employee_range (text : String) : String :=
  let qualifierResult : Option String :=
    if lowerContains text "more than" || lowerContains text "over" then
      match firstNum text with
      | some num =>
        some (if num < 5 then "1-10"
              else if num < 11 then "11-50"
              else if num < 51 then "51-200"
              else "201+")
      | none => none
    else if lowerContains text "less than" || lowerContains text "under" then
      match firstNum text with
      | some num => some (if num ≤ 11 then "1-10" else "11-50")
      | none => none
    else none
  match qualifierResult with
  | some r => r
  | none =>
    match rangeMatch text.toList with
    | some cs => String.mk cs
    | none =>
      match firstNum text with
      | some num =>
        if num ≤ 10 then "1-10"
        else if num ≤ 50 then "11-50"
        else if num ≤ 200 then "51-200"
        else "201+"
      | none => pyStrip text

/-- The bare-integer bucketing thresholds, as the claim states them
(`n ≤ 10 → "1-10"`, `n ≤ 50 → "11-50"`, `n ≤ 200 → "51-200"`, else
`"201+"`); this follows the specification's words, to compare with the
code's qualifier paths. -/
def employeeBucketSpec (n : Nat) : String :=
  if n ≤ 10 then "1-10"
  else if n ≤ 50 then "11-50"
  else if n ≤ 200 then "51-200"
  else "201+"

/-- A row of the `contractors` table (`app/models/contractor.py`).
`review_count` has column default 0; `data_confidence` is always written
by the storage layer; `last_scraped_at` has `server_default=func.now()`
and `onupdate=func.now()`. -/
structure StoredContractor where
  contractor_name : Option String
  rating : Option Int
  review_count : Int
  city : Option String
  state : Option String
  profile_url : Option String
  external_contractor_id : Option String
  years_in_business : Option Int
  business_start_year : Option Int
  employee_range : Option String
  state_license_number : Option String
  address : Option String
  phone : Option String
  data_confidence : String
  last_scraped_at : Int
deriving DecidableEq

/-- A row of the `certifications` table. -/
structure StoredCertification where
  contractor_id : Nat
  name : String
  original_text : String
deriving DecidableEq

/-- A row of the `contractor_text` table. -/
structure StoredText where
  contractor_id : Nat
  about_text : Option String
  review_snippets : Option String
deriving DecidableEq

/-- The committed database state: the three tables, plus the next free
primary key for `contractors`. -/
structure Store where
  contractors : List (Nat × StoredContractor)
  certifications : List StoredCertification
  texts : List StoredText
  nextId : Nat
deriving DecidableEq

/-- `ContractorStorage._create_contractor` (`app/storage/contractor_storage.py`,
lines 113-135): a new row straight from the processed dicts;
`review_count` defaults to 0, `last_scraped_at` to the current time. -/
def create_contractor (l : ProcessedListing) (p : ProcessedProfile)
    (conf : String) (now : Int) : StoredContractor :=
  { contractor_name := l.contractor_name
  , rating := l.rating
  , review_count := l.review_count.getD 0
  , city := l.city
  , state := l.state
  , profile_url := l.profile_url
  , external_contractor_id := l.external_contractor_id
  , years_in_business := p.years_in_business
  , business_start_year := p.business_start_year
  , employee_range := p.employee_range
  , state_license_number := p.state_license_number
  , address := p.address
  , phone := p.phone
  , data_confidence := conf
  , last_scraped_at := now }

/-- `ContractorStorage._update_contractor` (`app/storage/contractor_storage.py`,
lines 137-174): field-by-field merge into the existing row.  String
fields are overwritten only when the incoming value is truthy; `rating`,
`review_count`, `years_in_business` and `business_start_year` when it
`is not None`; `data_confidence` is always overwritten, and
`last_scraped_at` advances via the column's `onupdate`. -/
def update_contractor (c : StoredContractor) (l : ProcessedListing)
    (p : ProcessedProfile) (conf : String) (now : Int) : StoredContractor :=
  { c with
    contractor_name := if truthyStr l.contractor_name then l.contractor_name else c.contractor_name
  , rating := if l.rating.isSome then l.rating else c.rating
  , review_count := match l.review_count with
      | some n => n
      | none => c.review_count
  , city := if truthyStr l.city then l.city else c.city
  , state := if truthyStr l.state then l.state else c.state
  , profile_url := if truthyStr l.profile_url then l.profile_url else c.profile_url
  , years_in_business := if p.years_in_business.isSome then p.years_in_business else c.years_in_business
  , business_start_year := if p.business_start_year.isSome then p.business_start_year else c.business_start_year
  , employee_range := if truthyStr p.employee_range then p.employee_range else c.employee_range
  , state_license_number := if truthyStr p.state_license_number then p.state_license_number else c.state_license_number
  , address := if truthyStr p.address then p.address else c.address
  , phone := if truthyStr p.phone then p.phone else c.phone
  , data_confidence := conf
  , last_scraped_at := now }

/-- `ContractorStorage._save_certifications` (`app/storage/contractor_storage.py`,
lines 176-191): delete every certification row of the contractor, then
insert one row per non-empty certification name (`name` and
`original_text` both set to it). -/
def save_certifications (certTable : List StoredCertification) (cid : Nat)
    (certifications : List String) : List StoredCertification :=
  certTable.filter (fun c => c.contractor_id != cid) ++
    (certifications.filter (fun n => n ≠ "")).map
      (fun n => { contractor_id := cid, name := n, original_text := n })

/-- The concatenated `review_text` of `_save_text_data`
(`app/storage/contractor_storage.py`, lines 200-202): join with the fixed
separator when the snippet list is truthy, else `None`. -/
def reviewTextOf (p : ProcessedProfile) : Option String :=
  let snippets := p.review_snippets.getD []
  if snippets.isEmpty then none
  else some (String.intercalate "\n\n---\n\n" snippets)

/-- The update branch of `_save_text_data` (lines 204-209): overwrite
`about_text` / `review_snippets` only when the incoming value is truthy. -/
def update_text_record (t : StoredText) (p : ProcessedProfile) : StoredText :=
  { t with
    about_text := if truthyStr p.about_text then p.about_text else t.about_text
  , review_snippets := if truthyStr (reviewTextOf p) then reviewTextOf p else t.review_snippets }

/-- Replace the first row with the given `contractor_id` by its updated
version (the ORM mutates the single row `query(...).first()` returned). -/
def updateTextFirst (f : StoredText → StoredText) (cid : Nat) :
    List StoredText → List StoredText
  | [] => []
  | t :: r => if t.contractor_id == cid then f t :: r else t :: updateTextFirst f cid r

/-- `ContractorStorage._save_text_data` (`app/storage/contractor_storage.py`,
lines 193-217): update the contractor's existing text row in place, or
insert a fresh one. -/
def save_text_data (texts : List StoredText) (cid : Nat)
    (p : ProcessedProfile) : List StoredText :=
  match texts.find? (fun t => t.contractor_id == cid) with
  | some _ => updateTextFirst (fun t => update_text_record t p) cid texts
  | none => texts ++ [{ contractor_id := cid, about_text := p.about_text
                      , review_snippets := reviewTextOf p }]

/-- Where, if anywhere, the unit of work fails: an `IntegrityError` (or
any other exception) surfacing at the `flush` of line 89 or at the
`commit` of line 99 of `app/storage/contractor_storage.py`. -/
inductive FailPoint where
  | atFlush
  | atCommit
  | noFail
deriving DecidableEq

/-- `ContractorStorage.save_contractor` (`app/storage/contractor_storage.py`,
lines 38-111), applied to the already-processed dicts (the ETL
normalization of lines 57-58 happens upstream of the fields read here).
The session's pending writes are threaded as explicit updated stores; the
`except` handlers' `self.db.rollback(); return None` yields the untouched
committed store.  Certifications are rewritten only under the line-92
guard `if processed_listing.get("certifications"):`. -/
def save_contractor (store : Store) (l : ProcessedListing) (p : ProcessedProfile)
    (update_existing : Bool) (now : Int) (fp : FailPoint) : Store × Option Nat :=
  let conf := calculate_data_confidence l p
  let found : Option (Nat × StoredContractor) :=
    if truthyStr l.external_contractor_id then
      store.contractors.find? (fun ic => ic.2.external_contractor_id == l.external_contractor_id)
    else none
  let inserted : Store :=
    { store with
      contractors := store.contractors ++ [(store.nextId, create_contractor l p conf now)]
      nextId := store.nextId + 1 }
  let pendingAndId : Store × Nat :=
    match found with
    | some (i, c) =>
      if update_existing then
        let merged := store.contractors.map
          (fun ic => if ic.1 == i then (i, update_contractor c l p conf now) else ic)
        ({ store with contractors := merged }, i)
      else
        (inserted, store.nextId)
    | none => (inserted, store.nextId)
  let pending := pendingAndId.1
  let cid := pendingAndId.2
  if fp = FailPoint.atFlush then (store, none)
  else
    let pending := if truthyList l.certifications then
        { pending with certifications := save_certifications pending.certifications cid (l.certifications.getD []) }
      else pending
    let pending := { pending with texts := save_text_data pending.texts cid p }
    if fp = FailPoint.atCommit then (store, none)
    else (pending, some cid)

/-- Python truthiness of an optional non-negative integer argument:
`None` and `0` are falsy. -/
def truthyNatOpt : Option Nat → Bool
  | none => false
  | some n => !(n == 0)

/-- `ContractorStorage.get_all_contractors` (`app/storage/contractor_storage.py`,
lines 225-230): the cap is applied under Python truthiness of `limit`
(`if limit:`), so both `None` and `0` leave the query uncapped. -/
def get_all_contractors (contractors : List (Nat × StoredContractor))
    (limit : Option Nat) : List (Nat × StoredContractor) :=
  if truthyNatOpt limit then contractors.take (limit.getD 0) else contractors

/-- The dictionary returned by `get_freshness_report`. -/
structure FreshnessReport where
  total : Nat
  fresh_7d : Nat
  fresh_30d : Nat
  fresh_90d : Nat
  stale_30d : Nat
  stale_90d : Nat
  freshness_rate_30d : Rat
deriving DecidableEq

/-- `ContractorStorage.get_freshness_report` (`app/storage/contractor_storage.py`,
lines 253-300): all-zero early return when the table is empty, else
window counts on `last_scraped_at` and the 30-day rate
`fresh_30d / total * 100` (guarded once more by `if total > 0`). -/
def get_freshness_report (now : Int) (contractors : List StoredContractor) : FreshnessReport :=
  let total := contractors.length
  if total = 0 then
    { total := 0, fresh_7d := 0, fresh_30d := 0, fresh_90d := 0
    , stale_30d := 0, stale_90d := 0, freshness_rate_30d := 0 }
  else
    let fresh_7d := (contractors.filter (fun c => now - 7 * 86400 < c.last_scraped_at)).length
    let fresh_30d := (contractors.filter (fun c => now - 30 * 86400 < c.last_scraped_at)).length
    let fresh_90d := (contractors.filter (fun c => now - 90 * 86400 < c.last_scraped_at)).length
    { total := total, fresh_7d := fresh_7d, fresh_30d := fresh_30d, fresh_90d := fresh_90d
    , stale_30d := total - fresh_30d, stale_90d := total - fresh_90d
    , freshness_rate_30d := if 0 < total then (fresh_30d : Rat) / (total : Rat) * 100 else 0 }

/-! ## Concrete example data, used by the closed counterexample and
witness theorems below. -/

/-- An empty database. -/
def emptyStore : Store :=
  { contractors := [], certifications := [], texts := [], nextId := 1 }

/-- A fully-populated processed listing for external id `1004859`. -/
def listingA : ProcessedListing :=
  { contractor_name := some "Acme Roofing"
  , rating := some 4
  , review_count := some 12
  , city := some "Elmhurst"
  , state := some "NY"
  , profile_url := some "https://www.gaf.com/acme-roofing-1004859"
  , external_contractor_id := some "1004859"
  , certifications := some ["Master Elite"] }

/-- The same listing re-scraped with an empty certification list. -/
def listingAEmptyCerts : ProcessedListing :=
  { listingA with certifications := some [] }

/-- A listing with every field absent. -/
def listingEmpty : ProcessedListing :=
  { contractor_name := none, rating := none, review_count := none, city := none
  , state := none, profile_url := none, external_contractor_id := none
  , certifications := none }

/-- A profile with every field absent. -/
def profileEmpty : ProcessedProfile :=
  { years_in_business := none, business_start_year := none, employee_range := none
  , state_license_number := none, address := none, phone := none
  , about_text := none, review_snippets := none }

/-- A fully-populated processed profile. -/
def profileFull : ProcessedProfile :=
  { years_in_business := some 10
  , business_start_year := some 2014
  , employee_range := some "11-50"
  , state_license_number := some "H-123456"
  , address := some "12 Main St, Elmhurst, NY"
  , phone := some "5551234567"
  , about_text := some "Family-owned roofing company."
  , review_snippets := some ["Great crew.", "On time."] }

/-- The store after saving `listingA` into an empty database. -/
def storeAfterFirstSave : Store :=
  (save_contractor emptyStore listingA profileEmpty true 100 FailPoint.noFail).1

/-- The store after re-saving the same external id with an empty
certification list. -/
def storeAfterSecondSave : Store :=
  (save_contractor storeAfterFirstSave listingAEmptyCerts profileEmpty true 200 FailPoint.noFail).1

/-- An arbitrary pre-existing contractor row, for the merge theorems. -/
def contractorB : StoredContractor :=
  { contractor_name := some "Beta Exteriors"
  , rating := some 5
  , review_count := 7
  , city := some "Albany"
  , state := some "NY"
  , profile_url := some "https://www.gaf.com/beta-exteriors-2000001"
  , external_contractor_id := some "2000001"
  , years_in_business := some 20
  , business_start_year := some 2004
  , employee_range := some "11-50"
  , state_license_number := some "B-777"
  , address := some "1 Oak Ave, Albany, NY"
  , phone := some "5550000000"
  , data_confidence := "medium"
  , last_scraped_at := 50 }

/-- An arbitrary pre-existing text row, for the merge theorems. -/
def textB : StoredText :=
  { contractor_id := 3
  , about_text := some "Old about text."
  , review_snippets := some "Old review." }

/-! ## Theorems -/

/-- Helper: the imperative accumulation of `calculate_data_confidence`
equals bucketing the plain sum `confidenceScore`. -/
lemma calculate_eq_bucket (l : ProcessedListing) (p : ProcessedProfile) :
    calculate_data_confidence l p =
      (if 8 ≤ confidenceScore l p then "high"
       else if 5 ≤ confidenceScore l p then "medium"
       else "low") := by
  simp only [calculate_data_confidence, confidenceScore, Nat.zero_add]

/-- Helper: the ranks of the three bucket strings. -/
lemma bucket_ranks :
    confidenceRank "high" = 2 ∧ confidenceRank "medium" = 1 ∧ confidenceRank "low" = 0 := by
  decide

/-- C4: for every pair of processed listing and profile dicts, the
confidence bucket of `calculate_data_confidence` is determined by the
ten-point sum `confidenceScore` (one point per present/non-empty tracked
field: four listing points, six profile points): "high" exactly when the
score is at least 8, "medium" exactly when it is in `[5, 8)`, and "low"
exactly when it is below 5.  Both sides are Lean functions, hence
deterministic. -/
theorem confidence_thresholds (l : ProcessedListing) (p : ProcessedProfile) :
    (calculate_data_confidence l p = "high" ↔ 8 ≤ confidenceScore l p)
  ∧ (calculate_data_confidence l p = "medium" ↔ 5 ≤ confidenceScore l p ∧ confidenceScore l p < 8)
  ∧ (calculate_data_confidence l p = "low" ↔ confidenceScore l p < 5) := by
  have d1 : ("high" : String) ≠ "medium" := by decide
  have d2 : ("high" : String) ≠ "low" := by decide
  have d3 : ("medium" : String) ≠ "low" := by decide
  rw [calculate_eq_bucket]
  generalize confidenceScore l p = s
  split_ifs with h1 h2 <;>
    refine ⟨?_, ?_, ?_⟩ <;> constructor <;> intro hx <;> simp_all <;> omega

/-- Helper: an indicator point is monotone under implication of its
condition. -/
lemma ite_one_le {b c : Bool} (h : b = true → c = true) :
    (if b then (1 : Nat) else 0) ≤ (if c then 1 else 0) := by
  cases b <;> cases c <;> simp_all

/-- Helper: bucketing a larger score never lowers the bucket rank. -/
lemma rank_bucket_mono {a b : Nat} (h : a ≤ b) :
    confidenceRank (if 8 ≤ a then "high" else if 5 ≤ a then "medium" else "low") ≤
      confidenceRank (if 8 ≤ b then "high" else if 5 ≤ b then "medium" else "low") := by
  obtain ⟨r1, r2, r3⟩ := bucket_ranks
  split_ifs <;> simp_all <;> omega

/-- C6: confidence scoring is monotone.  If every tracked field that is
present/non-empty in the first listing/profile pair is also
present/non-empty in the second (in particular, if the second pair is the
first with one previously-missing field filled with any non-empty value),
then the computed score does not decrease and the bucket does not move
down in the order low < medium < high. -/
theorem confidence_monotone (l1 l2 : ProcessedListing) (p1 p2 : ProcessedProfile)
    (hname : truthyStr l1.contractor_name = true → truthyStr l2.contractor_name = true)
    (hcity : truthyStr l1.city = true → truthyStr l2.city = true)
    (hstate : truthyStr l1.state = true → truthyStr l2.state = true)
    (hrating : l1.rating.isSome = true → l2.rating.isSome = true)
    (hurl : truthyStr l1.profile_url = true → truthyStr l2.profile_url = true)
    (haddress : truthyStr p1.address = true → truthyStr p2.address = true)
    (hphone : truthyStr p1.phone = true → truthyStr p2.phone = true)
    (hyears : truthyInt p1.years_in_business = true → truthyInt p2.years_in_business = true)
    (hemployee : truthyStr p1.employee_range = true → truthyStr p2.employee_range = true)
    (habout : truthyStr p1.about_text = true → truthyStr p2.about_text = true)
    (hsnips : truthyList p1.review_snippets = true → truthyList p2.review_snippets = true) :
    confidenceScore l1 p1 ≤ confidenceScore l2 p2 ∧
      confidenceRank (calculate_data_confidence l1 p1) ≤
        confidenceRank (calculate_data_confidence l2 p2) := by
  have hcs : (truthyStr l1.city && truthyStr l1.state) = true →
      (truthyStr l2.city && truthyStr l2.state) = true := by
    intro h
    rw [Bool.and_eq_true] at h ⊢
    exact ⟨hcity h.1, hstate h.2⟩
  have hscore : confidenceScore l1 p1 ≤ confidenceScore l2 p2 := by
    unfold confidenceScore
    have t1 := ite_one_le hname
    have t2 := ite_one_le hcs
    have t3 := ite_one_le hrating
    have t4 := ite_one_le hurl
    have t5 := ite_one_le haddress
    have t6 := ite_one_le hphone
    have t7 := ite_one_le hyears
    have t8 := ite_one_le hemployee
    have t9 := ite_one_le habout
    have t10 := ite_one_le hsnips
    omega
  refine ⟨hscore, ?_⟩
  rw [calculate_eq_bucket, calculate_eq_bucket]
  exact rank_bucket_mono hscore

/-- Witness for C6 at concrete inputs: the empty pair against a fully
populated pair. -/
theorem confidence_monotone_witness :
    confidenceScore listingEmpty profileEmpty ≤ confidenceScore listingA profileFull ∧
      confidenceRank (calculate_data_confidence listingEmpty profileEmpty) ≤
        confidenceRank (calculate_data_confidence listingA profileFull) :=
  confidence_monotone listingEmpty listingA profileEmpty profileFull
    (by decide) (by decide) (by decide) (by decide) (by decide) (by decide)
    (by decide) (by decide) (by decide) (by decide) (by decide)

/-- C2 counterexample: the scraper's business-start-year sanity check
rejects the parsed year 2025 although, for current year 2026, it lies
within `[1800, current_year]` — the source's upper bound is the fixed
literal 2024, not the current year. -/
theorem start_year_fixed_bound_cex :
    scraper_start_year_check 2025 = none ∧ (1800 : Int) ≤ 2025 ∧ (2025 : Int) ≤ 2026 := by
  decide

/-- C2 amended: the scraper's extraction accepts a parsed 4-digit year
iff it lies within the fixed interval `[1800, 2024]`, while the ETL
normalizer accepts iff it lies within `[1800, current_year]` for every
current year; `years_in_business` is derived as
`current_year - business_start_year` for accepted (hence non-zero) start
years and is null when the start year is null; a start year of 1899 with
current year 2024 yields 125, and 1500 is rejected to null on both
paths. -/
theorem start_year_amended :
    (∀ y : Int, scraper_start_year_check y = some y ↔ 1800 ≤ y ∧ y ≤ 2024)
  ∧ (∀ y : Int, ¬(1800 ≤ y ∧ y ≤ 2024) → scraper_start_year_check y = none)
  ∧ (∀ cy y : Int, normalize_start_year cy (some y) = some y ↔ 1800 ≤ y ∧ y ≤ cy)
  ∧ (∀ cy y : Int, ¬(1800 ≤ y ∧ y ≤ cy) → normalize_start_year cy (some y) = none)
  ∧ (∀ cy : Int, normalize_start_year cy none = none)
  ∧ (∀ cy y s : Int, scraper_start_year_check y = some s →
       extract_years_in_business cy (some s) = some (cy - s))
  ∧ extract_years_in_business 2024 (some 1899) = some 125
  ∧ scraper_start_year_check 1500 = none
  ∧ (∀ cy : Int, normalize_start_year cy (some 1500) = none)
  ∧ (∀ cy : Int, extract_years_in_business cy none = none) := by
  refine ⟨?_, ?_, ?_, ?_, ?_, ?_, by decide, by decide, ?_, ?_⟩
  · intro y
    unfold scraper_start_year_check
    split_ifs with h <;> simp [h]
  · intro y h
    unfold scraper_start_year_check
    rw [if_neg h]
  · intro cy y
    simp only [normalize_start_year]
    split_ifs with h <;> simp [h]
  · intro cy y h
    simp only [normalize_start_year]
    rw [if_neg h]
  · intro cy; rfl
  · intro cy y s h
    unfold scraper_start_year_check at h
    split_ifs at h with hb
    · injection h with h
      subst h
      simp only [extract_years_in_business]
      rw [if_pos (by omega : y ≠ 0)]
  · intro cy
    simp only [normalize_start_year]
    rw [if_neg (by omega : ¬((1800 : Int) ≤ 1500 ∧ (1500 : Int) ≤ cy))]
  · intro cy; rfl

/-- Witness for C2 at a concrete input: an accepted 1899 start year with
current year 2026 yields 127 years in business. -/
theorem start_year_amended_witness :
    extract_years_in_business 2026 (some 1899) = some 127 :=
  start_year_amended.2.2.2.2.2.1 2026 1899 1899 (by decide)

/-- C9: over a store with zero entities the freshness report is the
all-zero record with a rate of exactly 0: the function takes the early
zero-total return, so the division-by-total expression of the non-empty
branch is never evaluated. -/
theorem freshness_report_empty (now : Int) :
    get_freshness_report now [] =
      { total := 0, fresh_7d := 0, fresh_30d := 0, fresh_90d := 0
      , stale_30d := 0, stale_90d := 0, freshness_rate_30d := 0 } := rfl

/-- C10: the list-all operation with limit 0 (and with no limit) returns
all stored entities — the cap applies only when the Python-truthy test
`if limit:` passes — while any positive limit n returns at most n
entities. -/
theorem get_all_contractors_limit :
    (∀ cs : List (Nat × StoredContractor), get_all_contractors cs (some 0) = cs)
  ∧ (∀ (cs : List (Nat × StoredContractor)) (n : Nat), 0 < n →
       (get_all_contractors cs (some n)).length ≤ n)
  ∧ (∀ cs : List (Nat × StoredContractor), get_all_contractors cs none = cs) := by
  refine ⟨fun cs => rfl, ?_, fun cs => rfl⟩
  intro cs n hn
  unfold get_all_contractors
  have ht : truthyNatOpt (some n) = true := by
    simp [truthyNatOpt]
    omega
  rw [if_pos ht]
  simp [List.length_take_le]

/-- Witness for C10 at a concrete input. -/
theorem get_all_contractors_limit_witness :
    (get_all_contractors ((storeAfterFirstSave).contractors) (some 1)).length ≤ 1 :=
  get_all_contractors_limit.2.1 _ 1 (by decide)

/-- C8: whenever the unit of work fails (an integrity violation or any
other unexpected exception at the flush or at the commit), the except
handler rolls the whole unit of work back — the returned store is exactly
the pre-call committed store, entity, certifications, text blob and
timestamps included — and the call returns no entity instead of
raising. -/
theorem save_rollback (store : Store) (l : ProcessedListing) (p : ProcessedProfile)
    (u : Bool) (now : Int) (fp : FailPoint) (h : fp ≠ FailPoint.noFail) :
    save_contractor store l p u now fp = (store, none) := by
  unfold save_contractor
  rcases fp with _ | _ | _
  · simp
  · rw [if_neg (by decide)]
    simp
  · exact absurd rfl h

/-- Witness for C8 at a concrete input: a failing commit leaves the store
of the first example save untouched. -/
theorem save_rollback_witness :
    save_contractor storeAfterFirstSave listingA profileFull true 300 FailPoint.atCommit =
      (storeAfterFirstSave, none) :=
  save_rollback storeAfterFirstSave listingA profileFull true 300 FailPoint.atCommit (by decide)

/-- Helper: a list whose first two characters are `+1`. -/
lemma take_two_plus_one (cs : List Char) (h : cs.take 2 = ['+', '1']) :
    ∃ r, cs = '+' :: '1' :: r := by
  rcases cs with _ | ⟨a, _ | ⟨b, r⟩⟩
  · simp at h
  · simp at h
  · simp [List.take] at h
    exact ⟨r, by rw [h.1, h.2]⟩

/-- Helper: a list whose first character is `1`. -/
lemma take_one_one (cs : List Char) (h : cs.take 1 = ['1']) :
    ∃ r, cs = '1' :: r := by
  rcases cs with _ | ⟨a, r⟩
  · simp at h
  · simp [List.take] at h
    exact ⟨r, by rw [h]⟩

/-- Helper: for a 10-digit target, the country-code stripping step hits
it exactly from the three claimed shapes. -/
lemma dropCC_characterization (cs ds : List Char) (h10 : ds.length = 10)
    (hdig : ds.all Char.isDigit = true) :
    dropCountryCode cs = ds ↔ (cs = ds ∨ cs = '+' :: '1' :: ds ∨ cs = '1' :: ds) := by
  have hdhead : ∀ (x : Char) (t : List Char), ds = x :: t → x.isDigit = true := by
    intro x t h
    rw [h, List.all_cons, Bool.and_eq_true] at hdig
    exact hdig.1
  unfold dropCountryCode
  by_cases h1 : cs.take 2 = ['+', '1']
  · obtain ⟨r, rfl⟩ := take_two_plus_one cs h1
    rw [if_pos h1]
    show r = ds ↔ _
    constructor
    · rintro rfl
      exact Or.inr (Or.inl rfl)
    · rintro (h | h | h)
      · exfalso
        rcases ds with _ | ⟨x, t⟩
        · simp at h10
        · injection h with hx _
          have := hdhead x t rfl
          rw [← hx] at this
          exact absurd this (by decide)
      · simp only [List.cons.injEq, true_and] at h
        exact h
      · exfalso
        injection h with hx _
        exact absurd hx (by decide)
  · rw [if_neg h1]
    by_cases h2 : cs.take 1 = ['1'] ∧ cs.length = 11
    · obtain ⟨r, rfl⟩ := take_one_one cs h2.1
      rw [if_pos h2]
      show r = ds ↔ _
      have hrlen : r.length = 10 := by
        have := h2.2
        simp at this
        omega
      constructor
      · rintro rfl
        exact Or.inr (Or.inr rfl)
      · rintro (h | h | h)
        · exfalso
          have := congrArg List.length h
          simp [hrlen, h10] at this
        · exfalso
          injection h with hx _
          exact absurd hx (by decide)
        · simp only [List.cons.injEq, true_and] at h
          exact h
    · rw [if_neg h2]
      constructor
      · intro h
        exact Or.inl h
      · rintro (h | h | h)
        · exact h
        · exact absurd (by rw [h]; rfl) h1
        · exfalso
          apply h2
          rw [h]
          exact ⟨rfl, by simp [h10]⟩

/-- C5: phone normalization returns exactly the ten digits `d` iff the
input's kept content (digits and `+` signs) is a valid 10-digit-equivalent
number: the ten digits themselves, the ten digits preceded by `+1`, or
eleven digits with a leading `1`; on every other input — any other
resulting length or non-digit residue — it returns null. -/
theorem clean_phone_characterization (s d : String) :
    clean_phone s = some d ↔
      d.toList.length = 10 ∧ d.toList.all Char.isDigit = true ∧
        (phoneStrip s.toList = d.toList ∨
         phoneStrip s.toList = '+' :: '1' :: d.toList ∨
         phoneStrip s.toList = '1' :: d.toList) := by
  constructor
  · intro h
    simp only [clean_phone] at h
    by_cases hs : s = ""
    · rw [if_pos hs] at h
      exact absurd h (by simp)
    · rw [if_neg hs] at h
      by_cases hp : (dropCountryCode (phoneStrip s.toList)).length = 10 ∧
          (dropCountryCode (phoneStrip s.toList)).all Char.isDigit
      · rw [if_pos hp] at h
        injection h with h
        have hlist : dropCountryCode (phoneStrip s.toList) = d.toList := by
          rw [← h]
          rfl
        rw [hlist] at hp
        exact ⟨hp.1, hp.2, (dropCC_characterization _ _ hp.1 hp.2).mp hlist⟩
      · rw [if_neg hp] at h
        exact absurd h (by simp)
  · rintro ⟨h10, hdig, hdisj⟩
    have hlen : 10 ≤ (phoneStrip s.toList).length := by
      rcases hdisj with h | h | h <;> rw [h] <;> simp only [List.length_cons, h10] <;> omega
    have hs : s ≠ "" := by
      intro hs
      rw [hs] at hlen
      simp [phoneStrip] at hlen
    have hdcc : dropCountryCode (phoneStrip s.toList) = d.toList :=
      (dropCC_characterization _ _ h10 hdig).mpr hdisj
    simp only [clean_phone]
    rw [if_neg hs, hdcc, if_pos ⟨h10, hdig⟩]
    rfl

/-- Witness for C5 at a concrete input. -/
theorem clean_phone_characterization_witness :
    clean_phone "+1 (555) 123-4567" = some "5551234567" :=
  (clean_phone_characterization "+1 (555) 123-4567" "5551234567").mpr (by decide)

/-- C3 counterexample: the details text "More than 5" is mapped to
"11-50" by the code's qualifier path, while the bare-integer thresholds
the claim asserts for that path would bucket 5 as "1-10". -/
theorem employee_range_threshold_cex :
    extract_employee_range "More than 5" = "11-50" ∧
    employeeBucketSpec 5 = "1-10" ∧
    ("11-50" : String) ≠ "1-10" := by
  refine ⟨by decide, by decide, by decide⟩

/-- C3 amended: the qualifier paths use their own thresholds, not the
bare-integer ones: "more than"/"over" maps the extracted n to "1-10" for
n < 5, "11-50" for n < 11, "51-200" for n < 51, else "201+"; "less
than"/"under" maps n to "1-10" for n ≤ 11 and else "11-50".  With no
qualifier, an already-ranged numeric pattern is accepted verbatim, a bare
integer is bucketed by the `employeeBucketSpec` thresholds (n ≤ 10, 50,
200), and a text with no digits falls back to the stripped raw text. -/
theorem employee_range_amended :
    (∀ (t : String) (n : Nat),
       (lowerContains t "more than" || lowerContains t "over") = true →
       firstNum t = some n →
       extract_employee_range t =
         (if n < 5 then "1-10" else if n < 11 then "11-50"
          else if n < 51 then "51-200" else "201+"))
  ∧ (∀ (t : String) (n : Nat),
       (lowerContains t "more than" || lowerContains t "over") = false →
       (lowerContains t "less than" || lowerContains t "under") = true →
       firstNum t = some n →
       extract_employee_range t = (if n ≤ 11 then "1-10" else "11-50"))
  ∧ (∀ (t : String) (r : List Char),
       (lowerContains t "more than" || lowerContains t "over") = false →
       (lowerContains t "less than" || lowerContains t "under") = false →
       rangeMatch t.toList = some r →
       extract_employee_range t = String.mk r)
  ∧ (∀ (t : String) (n : Nat),
       (lowerContains t "more than" || lowerContains t "over") = false →
       (lowerContains t "less than" || lowerContains t "under") = false →
       rangeMatch t.toList = none →
       firstNum t = some n →
       extract_employee_range t = employeeBucketSpec n)
  ∧ (∀ t : String, firstNum t = none → rangeMatch t.toList = none →
       extract_employee_range t = pyStrip t) := by
  refine ⟨?_, ?_, ?_, ?_, ?_⟩
  · intro t n hq hn
    simp only [extract_employee_range, hq, hn]
    simp
  · intro t n hq1 hq2 hn
    simp only [extract_employee_range, hq1, hq2, hn]
    simp
  · intro t r hq1 hq2 hr
    simp only [extract_employee_range, hq1, hq2, hr]
    simp
  · intro t n hq1 hq2 hr hn
    simp only [extract_employee_range, employeeBucketSpec, hq1, hq2, hr, hn]
    simp
  · intro t hn hr
    by_cases hq1 : (lowerContains t "more than" || lowerContains t "over") = true
    · simp only [extract_employee_range, hq1, hn, hr]
      simp
    · rw [Bool.not_eq_true] at hq1
      by_cases hq2 : (lowerContains t "less than" || lowerContains t "under") = true
      · simp only [extract_employee_range, hq1, hq2, hn, hr]
        simp
      · rw [Bool.not_eq_true] at hq2
        simp only [extract_employee_range, hq1, hq2, hn, hr]
        simp

/-- Witness for C3 at concrete inputs, one per path. -/
theorem employee_range_amended_witness :
    extract_employee_range "More than 12" = "51-200" ∧
    extract_employee_range "less than 3" = "1-10" ∧
    extract_employee_range "5-10" = "5-10" ∧
    extract_employee_range "12" = "11-50" ∧
    extract_employee_range "Small team" = "Small team" := by
  refine ⟨?_, ?_, ?_, ?_, ?_⟩
  · have h := employee_range_amended.1 "More than 12" 12 (by decide) (by decide)
    rw [h]
    decide
  · have h := employee_range_amended.2.1 "less than 3" 3 (by decide) (by decide) (by decide)
    rw [h]
    decide
  · have h := employee_range_amended.2.2.1 "5-10" ['5', '-', '1', '0']
      (by decide) (by decide) (by decide)
    rw [h]
  · have h := employee_range_amended.2.2.2.1 "12" 12 (by decide) (by decide) (by decide) (by decide)
    rw [h]
    decide
  · have h := employee_range_amended.2.2.2.2 "Small team" (by decide) (by decide)
    rw [h]
    decide

/-- C7: when a save finds an existing entity, the merge is field-by-field
and never overwrites with an empty value: for each tracked entity field
whose incoming processed value is empty or null — and likewise for
`about_text` and the review snippets on the text blob — the stored value
after the merge equals the stored value before it. -/
theorem merge_preserves_empty_fields (c : StoredContractor) (l : ProcessedListing)
    (p : ProcessedProfile) (conf : String) (now : Int) (t : StoredText) :
    (truthyStr l.contractor_name = false →
       (update_contractor c l p conf now).contractor_name = c.contractor_name)
  ∧ (l.rating = none → (update_contractor c l p conf now).rating = c.rating)
  ∧ (l.review_count = none → (update_contractor c l p conf now).review_count = c.review_count)
  ∧ (truthyStr l.city = false → (update_contractor c l p conf now).city = c.city)
  ∧ (truthyStr l.state = false → (update_contractor c l p conf now).state = c.state)
  ∧ (truthyStr l.profile_url = false →
       (update_contractor c l p conf now).profile_url = c.profile_url)
  ∧ (p.years_in_business = none →
       (update_contractor c l p conf now).years_in_business = c.years_in_business)
  ∧ (p.business_start_year = none →
       (update_contractor c l p conf now).business_start_year = c.business_start_year)
  ∧ (truthyStr p.employee_range = false →
       (update_contractor c l p conf now).employee_range = c.employee_range)
  ∧ (truthyStr p.state_license_number = false →
       (update_contractor c l p conf now).state_license_number = c.state_license_number)
  ∧ (truthyStr p.address = false → (update_contractor c l p conf now).address = c.address)
  ∧ (truthyStr p.phone = false → (update_contractor c l p conf now).phone = c.phone)
  ∧ (truthyStr p.about_text = false → (update_text_record t p).about_text = t.about_text)
  ∧ (p.review_snippets.getD [] = [] →
       (update_text_record t p).review_snippets = t.review_snippets) := by
  refine ⟨?_, ?_, ?_, ?_, ?_, ?_, ?_, ?_, ?_, ?_, ?_, ?_, ?_, ?_⟩ <;> intro h <;>
    simp [update_contractor, update_text_record, reviewTextOf, h] <;>
    simp [truthyStr]

/-- Witness for C7 at concrete inputs: an all-empty incoming scrape
leaves a populated row and text blob unchanged. -/
theorem merge_preserves_empty_fields_witness :
    (update_contractor contractorB listingEmpty profileEmpty "low" 999).phone =
        contractorB.phone ∧
      (update_text_record textB profileEmpty).review_snippets = textB.review_snippets := by
  have h := merge_preserves_empty_fields contractorB listingEmpty profileEmpty "low" 999 textB
  exact ⟨h.2.2.2.2.2.2.2.2.2.2.2.1 (by decide), h.2.2.2.2.2.2.2.2.2.2.2.2.2 (by decide)⟩

/-- Helper: deleting a contractor's certification rows leaves no row of
that contractor. -/
lemma filter_erase_self (tbl : List StoredCertification) (cid : Nat) :
    (tbl.filter (fun c => c.contractor_id != cid)).filter
      (fun c => c.contractor_id == cid) = [] := by
  induction tbl with
  | nil => rfl
  | cons a t ih =>
    by_cases h : a.contractor_id == cid
    · have hb : (a.contractor_id != cid) = false := by simp [bne, h]
      simp only [List.filter, hb, ih]
    · have hb : (a.contractor_id != cid) = true := by simp [bne]; simpa using h
      have hb2 : (a.contractor_id == cid) = false := by simpa using h
      simp only [List.filter, hb, hb2, ih]

/-- Helper: the freshly inserted certification rows all carry the
contractor's id. -/
lemma filter_map_new (l : List String) (cid : Nat) :
    ((l.map (fun n =>
        ({ contractor_id := cid, name := n, original_text := n } : StoredCertification))).filter
      (fun c => c.contractor_id == cid)) =
      l.map (fun n => ({ contractor_id := cid, name := n, original_text := n } : StoredCertification)) := by
  induction l with
  | nil => rfl
  | cons a t ih =>
    simp only [List.map, List.filter, beq_self_eq_true, ih]

/-- Helper: after `save_certifications`, the contractor's certification
rows are exactly the non-empty incoming names. -/
lemma save_certifications_filter (tbl : List StoredCertification) (cid : Nat)
    (certs : List String) :
    (save_certifications tbl cid certs).filter (fun c => c.contractor_id == cid) =
      (certs.filter (fun n => n ≠ "")).map
        (fun n => ({ contractor_id := cid, name := n, original_text := n } : StoredCertification)) := by
  unfold save_certifications
  rw [List.filter_append, filter_erase_self, filter_map_new, List.nil_append]

/-- Helper: the certification table a successful save commits — rewritten
only under the `if processed_listing.get("certifications"):` guard. -/
lemma save_contractor_noFail_certifications (store : Store) (l : ProcessedListing)
    (p : ProcessedProfile) (u : Bool) (now : Int) :
    ((save_contractor store l p u now FailPoint.noFail).1).certifications =
      (if truthyList l.certifications then
        save_certifications store.certifications
          ((save_contractor store l p u now FailPoint.noFail).2.getD 0)
          (l.certifications.getD [])
      else store.certifications) := by
  simp only [save_contractor]
  rcases hfound : (if truthyStr l.external_contractor_id then
      store.contractors.find? (fun ic => ic.2.external_contractor_id == l.external_contractor_id)
    else none) with _ | ⟨i, c⟩ <;>
    simp only [hfound] <;> cases u <;> simp <;> split_ifs <;> rfl

/-- C1 amended: on every successful save whose incoming certification
list is non-empty, the persisted certification set of the saved entity is
deleted and re-inserted from that list (so re-scrapes fully replace it
and duplicates cannot accumulate); but when the incoming list is empty or
missing, the line-92 guard skips `_save_certifications` and the
previously persisted certification set is left unchanged, contrary to the
claim's parenthetical. -/
theorem certifications_replace (store : Store) (l : ProcessedListing)
    (p : ProcessedProfile) (now : Int) :
    (∀ (certs : List String) (st : Store) (cid : Nat),
       l.certifications = some certs → certs ≠ [] →
       save_contractor store l p true now FailPoint.noFail = (st, some cid) →
       st.certifications.filter (fun c => c.contractor_id == cid) =
         (certs.filter (fun n => n ≠ "")).map
           (fun n => ({ contractor_id := cid, name := n, original_text := n } : StoredCertification)))
  ∧ (truthyList l.certifications = false →
       ∀ (st : Store) (r : Option Nat),
         save_contractor store l p true now FailPoint.noFail = (st, r) →
         st.certifications = store.certifications) := by
  constructor
  · intro certs st cid hcerts hne hsave
    obtain rfl : st = (save_contractor store l p true now FailPoint.noFail).1 := by
      rw [hsave]
    have hcid : (save_contractor store l p true now FailPoint.noFail).2 = some cid := by
      rw [hsave]
    have htruthy : truthyList l.certifications = true := by
      rw [hcerts]
      rcases certs with _ | ⟨a, t⟩
      · exact absurd rfl hne
      · rfl
    rw [save_contractor_noFail_certifications, if_pos htruthy, hcid, hcerts]
    exact save_certifications_filter _ _ _
  · intro hfalse st r hsave
    obtain rfl : st = (save_contractor store l p true now FailPoint.noFail).1 := by
      rw [hsave]
    rw [save_contractor_noFail_certifications, if_neg ?_]
    rw [hfalse]
    simp

/-- C1 counterexample: saving external id "1004859" with certification
["Master Elite"] and then re-saving it with an empty certification list
succeeds but leaves the old certification row in place, where the claim
requires the set to become empty. -/
theorem certifications_not_replaced_when_empty_cex :
    (save_contractor storeAfterFirstSave listingAEmptyCerts profileEmpty true 200
        FailPoint.noFail).2 = some 1 ∧
    storeAfterSecondSave.certifications =
      [{ contractor_id := 1, name := "Master Elite", original_text := "Master Elite" }] ∧
    storeAfterSecondSave.certifications ≠ ([] : List StoredCertification) := by
  refine ⟨by decide, by decide, by decide⟩

/-- Witness for C1 at concrete inputs: the first save persists exactly
the incoming certification, and the empty-list re-save changes
nothing. -/
theorem certifications_replace_witness :
    storeAfterFirstSave.certifications.filter (fun c => c.contractor_id == 1) =
      [({ contractor_id := 1, name := "Master Elite", original_text := "Master Elite" } :
        StoredCertification)] ∧
    storeAfterSecondSave.certifications = storeAfterFirstSave.certifications := by
  constructor
  · have h := (certifications_replace emptyStore listingA profileEmpty 100).1
      ["Master Elite"] storeAfterFirstSave 1 rfl (by decide) (by decide)
    rw [h]
    decide
  · exact (certifications_replace storeAfterFirstSave listingAEmptyCerts profileEmpty 200).2
      (by decide) storeAfterSecondSave (some 1) (by decide)
